import Mathlib

/-!
# Verification of the pulser-mcp specification against its source

Shallow embedding of the parts of the `pulser-mcp` repository that the
spec's claims are about: the synthetic data generator's probability
tables and row-count logic (`synthetic_data_mcp/src/synthetic_server_v3.py`),
the uniform handler error pattern and JWT gating across the MCP servers,
the sandboxed code execution dispatch (`financial_analyst_mcp`), the
mocked cross-agent analysis (`unified_mcp`), the demo search handler
(`src/handlers.py`), and the audio quality heuristics
(`audio_analysis_mcp/src/audio_server.py`).

Python floats are embedded as exact rationals (`ℚ`); the decimal
literals in the source are exactly representable and the arithmetic
checked here stays in ranges where float and rational results agree.
Outputs of third-party libraries (librosa features, numpy arrays,
sqlite, Docker) are inputs of the embedded functions; the arithmetic
and control flow performed by the repository code itself is translated
statement by statement.
-/

namespace PulserMCP

/-! ## synthetic_server_v3.py: probability tables (lines 40-91)

`CATEGORY_WEIGHTS` and `TBWA_CATEGORY_SHARE` are the two dict literals;
dict iteration order in Python 3 is insertion order, so they are
embedded as association lists in source order. -/

def CATEGORY_WEIGHTS : List (String × ℚ) :=
  [("Dairy", 0.07), ("Coffee Creamer", 0.01), ("Snacks", 0.14),
   ("Beverage", 0.09), ("CSD", 0.07), ("Noodles", 0.06),
   ("Pasta", 0.01), ("Tobacco", 0.14), ("Home Care", 0.08),
   ("Personal Care", 0.06), ("Condiment", 0.04), ("Canned", 0.03),
   ("Rice", 0.07), ("Coffee", 0.03), ("Confectionery", 0.03),
   ("Alcohol", 0.04), ("Other", 0.03)]

def TBWA_CATEGORY_SHARE : List (String × ℚ) :=
  [("Dairy", 0.50), ("Coffee Creamer", 0.95), ("Snacks", 0.35),
   ("Beverage", 0.20), ("CSD", 0.0), ("Noodles", 0.0),
   ("Pasta", 0.10), ("Tobacco", 0.40), ("Home Care", 0.12),
   ("Personal Care", 0.10), ("Condiment", 0.40), ("Canned", 0.70),
   ("Rice", 0.0), ("Coffee", 0.0), ("Confectionery", 0.0),
   ("Alcohol", 0.0), ("Other", 0.0)]

/-- Python `d.get(key, default)` on a dict embedded as an association list. -/
def dictGet (d : List (String × ℚ)) (key : String) (default : ℚ) : ℚ :=
  match d.find? (fun p => p.1 == key) with
  | some p => p.2
  | none => default

/-- `calculate_total_tbwa_share` (synthetic_server_v3.py lines 85-91):
`total = 0`, then for each `(category, cat_weight)` of `CATEGORY_WEIGHTS`,
`total += cat_weight * TBWA_CATEGORY_SHARE.get(category, 0)`. -/
def calculate_total_tbwa_share : ℚ :=
  CATEGORY_WEIGHTS.foldl
    (fun total cw => total + cw.2 * dictGet TBWA_CATEGORY_SHARE cw.1 0) 0

/-! Per-category lookups of `TBWA_CATEGORY_SHARE`, each by definitional
evaluation of `dictGet`. -/

lemma share_Dairy : dictGet TBWA_CATEGORY_SHARE "Dairy" 0 = 0.50 := rfl
lemma share_CoffeeCreamer : dictGet TBWA_CATEGORY_SHARE "Coffee Creamer" 0 = 0.95 := rfl
lemma share_Snacks : dictGet TBWA_CATEGORY_SHARE "Snacks" 0 = 0.35 := rfl
lemma share_Beverage : dictGet TBWA_CATEGORY_SHARE "Beverage" 0 = 0.20 := rfl
lemma share_CSD : dictGet TBWA_CATEGORY_SHARE "CSD" 0 = 0.0 := rfl
lemma share_Noodles : dictGet TBWA_CATEGORY_SHARE "Noodles" 0 = 0.0 := rfl
lemma share_Pasta : dictGet TBWA_CATEGORY_SHARE "Pasta" 0 = 0.10 := rfl
lemma share_Tobacco : dictGet TBWA_CATEGORY_SHARE "Tobacco" 0 = 0.40 := rfl
lemma share_HomeCare : dictGet TBWA_CATEGORY_SHARE "Home Care" 0 = 0.12 := rfl
lemma share_PersonalCare : dictGet TBWA_CATEGORY_SHARE "Personal Care" 0 = 0.10 := rfl
lemma share_Condiment : dictGet TBWA_CATEGORY_SHARE "Condiment" 0 = 0.40 := rfl
lemma share_Canned : dictGet TBWA_CATEGORY_SHARE "Canned" 0 = 0.70 := rfl
lemma share_Rice : dictGet TBWA_CATEGORY_SHARE "Rice" 0 = 0.0 := rfl
lemma share_Coffee : dictGet TBWA_CATEGORY_SHARE "Coffee" 0 = 0.0 := rfl
lemma share_Confectionery : dictGet TBWA_CATEGORY_SHARE "Confectionery" 0 = 0.0 := rfl
lemma share_Alcohol : dictGet TBWA_CATEGORY_SHARE "Alcohol" 0 = 0.0 := rfl
lemma share_Other : dictGet TBWA_CATEGORY_SHARE "Other" 0 = 0.0 := rfl

/-! ## synthetic_server_v3.py: transaction generation row count (lines 137-305)

`_generate_transactions` first (when `coverage_first` is set) generates
`int(MIN_PER_REGION * REGIONAL_WEIGHTS[region])` rows for every region
that has rows in `LOCATIONS_DF`, then fills `num_records - len(rows)`
more rows (`range` of a negative number is empty, which `ℕ`
subtraction mirrors).  `LOCATIONS_DF` is loaded from an external CSV
that is not part of the repository, so the number of locations per
region is a parameter `locCount` of the embedding.

`num_records` is the requested row count; the embedding takes it as a
natural number. -/

def REGIONAL_WEIGHTS : List (String × ℚ) :=
  [("NCR", 3.5), ("Region III", 2.0), ("Region IV-A", 2.5),
   ("Region VII", 2.0), ("Region XI", 1.8), ("CAR", 1.2),
   ("Region I", 1.0), ("Region II", 0.8), ("Region V", 1.0),
   ("Region VI", 1.2), ("Region VIII", 0.8), ("Region IX", 0.9),
   ("Region X", 1.3), ("Region XII", 1.0), ("Region XIII", 0.9),
   ("BARMM", 0.7), ("Region IV-B", 0.8)]

/-- `GenerationRequest` (synthetic_server_v3.py lines 137-143); the date
and format fields do not affect the row count. -/
structure GenerationRequest where
  dataset_type : String := "transactions"
  num_records : ℕ := 17000
  output_format : String := "csv"
  coverage_first : Bool := true

/-- `MIN_PER_REGION = max(50, request.num_records // (len(REGIONAL_WEIGHTS) * 4))`
(line 279). -/
def MIN_PER_REGION (numRecords : ℕ) : ℕ :=
  max 50 (numRecords / (REGIONAL_WEIGHTS.length * 4))

/-- `region_target = int(MIN_PER_REGION * REGIONAL_WEIGHTS[region])`
(line 285); `int()` truncates, which on these non-negative products is
the floor. -/
def regionTarget (numRecords : ℕ) (w : ℚ) : ℕ :=
  (⌊(MIN_PER_REGION numRecords : ℚ) * w⌋).toNat

/-- Rows generated by the coverage pass (lines 281-291): one batch of
`regionTarget` rows per region of `REGIONAL_WEIGHTS` whose `LOCATIONS_DF`
slice is non-empty. -/
def firstPassCount (locCount : String → ℕ) (numRecords : ℕ) : ℕ :=
  (REGIONAL_WEIGHTS.map
    (fun rw => if 0 < locCount rw.1 then regionTarget numRecords rw.2 else 0)).sum

/-- Total rows produced by `_generate_transactions` (lines 277-305):
the coverage pass (when `coverage_first`) followed by
`remaining = num_records - len(rows)` weighted draws, where `range` of
a negative `remaining` is empty. -/
def generatedRowCount (locCount : String → ℕ) (req : GenerationRequest) : ℕ :=
  (if req.coverage_first then firstPassCount locCount req.num_records else 0) +
    (req.num_records -
      (if req.coverage_first then firstPassCount locCount req.num_records else 0))

lemma firstPassCount_all_regions (locCount : String → ℕ)
    (h : ∀ r, 0 < locCount r) (n : ℕ) :
    firstPassCount locCount n =
      (REGIONAL_WEIGHTS.map (fun rw => regionTarget n rw.2)).sum := by
  unfold firstPassCount
  congr 1
  apply List.map_congr_left
  intro a _
  exact if_pos (h a.1)

lemma firstPass_at_100 :
    (REGIONAL_WEIGHTS.map (fun rw => regionTarget 100 rw.2)).sum = 1170 := by
  have hmin : MIN_PER_REGION 100 = 50 := rfl
  simp only [REGIONAL_WEIGHTS, List.map_cons, List.map_nil, List.sum_cons,
    List.sum_nil, regionTarget, hmin, Nat.cast_ofNat,
    show ⌊(50 : ℚ) * 3.5⌋ = 175 from by norm_num,
    show ⌊(50 : ℚ) * 2.0⌋ = 100 from by norm_num,
    show ⌊(50 : ℚ) * 2.5⌋ = 125 from by norm_num,
    show ⌊(50 : ℚ) * 1.8⌋ = 90 from by norm_num,
    show ⌊(50 : ℚ) * 1.2⌋ = 60 from by norm_num,
    show ⌊(50 : ℚ) * 1.0⌋ = 50 from by norm_num,
    show ⌊(50 : ℚ) * 0.8⌋ = 40 from by norm_num,
    show ⌊(50 : ℚ) * 0.9⌋ = 45 from by norm_num,
    show ⌊(50 : ℚ) * 1.3⌋ = 65 from by norm_num,
    show ⌊(50 : ℚ) * 0.7⌋ = 35 from by norm_num]
  rfl

/-! ## MCP tool handlers: the try/except pattern (all servers)

Every public `MCPTools` method wraps work in `try: ... except Exception
as e: logger.error(...); return {"success": False, "error": str(e)}`.
The embedding records, for each handler, whether any fallible statements
execute before the `try` block (in `scout_local_mcp/src/server.py` the
handlers run `sqlite3.connect(DB_PATH)` and `conn.cursor()` first), and
gives the resulting behaviour as a function of where an exception, if
any, is raised. -/

/-- Outcome of a handler's `try` block: the body either completes and
returns a payload (abstracted to its `success`/`error` fields) or
raises an exception with message `str(e)`. -/
inductive BodyOutcome where
  | completes (success : Bool) (error : Option String)
  | raises (msg : String)
deriving DecidableEq, Repr

/-- What the handler does as observed by its caller. -/
inductive HandlerBehavior where
  | returns (success : Bool) (error : Option String)
  | propagates (msg : String)
deriving DecidableEq, Repr

structure ToolHandler where
  server : String
  handlerName : String
  /-- `true` when fallible statements precede the `try` block. -/
  preTryFallible : Bool
deriving DecidableEq, Repr

/-- The public `MCPTools` methods of every server, with whether any
fallible statement precedes their `try` block. -/
def mcpHandlers : List ToolHandler :=
  [⟨"audio_analysis_mcp/src/audio_server.py", "analyze_audio", false⟩,
   ⟨"audio_analysis_mcp/src/audio_server.py", "assess_call_quality", false⟩,
   ⟨"audio_analysis_mcp/src/audio_server.py", "analyze_sentiment", false⟩,
   ⟨"audio_analysis_mcp/src/audio_server.py", "search_audio", false⟩,
   ⟨"briefvault_rag_mcp/src/briefvault_server.py", "ingest_document", false⟩,
   ⟨"briefvault_rag_mcp/src/briefvault_server.py", "search_briefs", false⟩,
   ⟨"briefvault_rag_mcp/src/briefvault_server.py", "analyze_brief", false⟩,
   ⟨"creative_rag_mcp/src/rag_server.py", "ingest_asset", false⟩,
   ⟨"creative_rag_mcp/src/rag_server.py", "search_vector", false⟩,
   ⟨"creative_rag_mcp/src/rag_server.py", "search_web", false⟩,
   ⟨"deep_researcher_mcp/src/researcher_server.py", "conduct_research", false⟩,
   ⟨"deep_researcher_mcp/src/researcher_server.py", "analyze_competitors", false⟩,
   ⟨"deep_researcher_mcp/src/researcher_server.py", "analyze_trends", false⟩,
   ⟨"deep_researcher_mcp/src/researcher_server.py", "setup_monitoring", false⟩,
   ⟨"financial_analyst_mcp/src/financial_server.py", "analyze_kpis", false⟩,
   ⟨"financial_analyst_mcp/src/financial_server.py", "generate_code", false⟩,
   ⟨"financial_analyst_mcp/src/financial_server.py", "execute_code", false⟩,
   ⟨"shared_memory_mcp/src/memory_server.py", "store_memory", false⟩,
   ⟨"shared_memory_mcp/src/memory_server.py", "recall_memories", false⟩,
   ⟨"shared_memory_mcp/src/memory_server.py", "create_relation", false⟩,
   ⟨"shared_memory_mcp/src/memory_server.py", "get_memory_graph", false⟩,
   ⟨"synthetic_data_mcp/src/synthetic_server.py", "generate_synthetic_data", false⟩,
   ⟨"synthetic_data_mcp/src/synthetic_server.py", "validate_data_quality", false⟩,
   ⟨"synthetic_data_mcp/src/synthetic_server.py", "simulate_market_scenario", false⟩,
   ⟨"synthetic_data_mcp/src/synthetic_server_v2.py", "generate_synthetic_data", false⟩,
   ⟨"synthetic_data_mcp/src/synthetic_server_v2.py", "validate_data_quality", false⟩,
   ⟨"synthetic_data_mcp/src/synthetic_server_v3.py", "generate_synthetic_data", false⟩,
   ⟨"synthetic_data_mcp/src/synthetic_server_v3.py", "validate_data_quality", false⟩,
   ⟨"unified_mcp/src/unified_server.py", "query_unified_data", false⟩,
   ⟨"unified_mcp/src/unified_server.py", "analyze_cross_agent", false⟩,
   ⟨"unified_mcp/src/unified_server.py", "create_predictive_model", false⟩,
   ⟨"unified_mcp/src/unified_server.py", "enable_mcp_plugin", false⟩,
   ⟨"video_rag_mcp/src/video_server.py", "analyze_video", false⟩,
   ⟨"video_rag_mcp/src/video_server.py", "check_brand_compliance", false⟩,
   ⟨"video_rag_mcp/src/video_server.py", "search_videos", false⟩,
   ⟨"voice_agent_mcp/src/voice_server.py", "start_voice_session", false⟩,
   ⟨"voice_agent_mcp/src/voice_server.py", "transcribe_audio", false⟩,
   ⟨"voice_agent_mcp/src/voice_server.py", "analyze_call", false⟩,
   ⟨"voice_agent_mcp/src/voice_server.py", "crawl_for_contacts", false⟩,
   ⟨"scout_local_mcp/src/server.py", "add_transcription", true⟩,
   ⟨"scout_local_mcp/src/server.py", "fetch_transcriptions", true⟩,
   ⟨"scout_local_mcp/src/server.py", "analyze_local_trends", true⟩]

/-- The `try ... except Exception as e: return {"success": False,
"error": str(e)}` wrapper shared by every handler. -/
def runTryBody : BodyOutcome → HandlerBehavior
  | .completes s e => .returns s e
  | .raises msg => .returns false (some msg)

/-- Behaviour of a handler: statements before the `try` (when present)
may raise first, and such an exception propagates; exceptions inside
the `try` are converted to the error dict. -/
def runHandler (h : ToolHandler) (preExc : Option String) (body : BodyOutcome) :
    HandlerBehavior :=
  if h.preTryFallible then
    match preExc with
    | some msg => .propagates msg
    | none => runTryBody body
  else runTryBody body

/-! ## JWT gating of the MCP tool endpoints (all servers)

Ten servers declare `verify_token` (HS256 decode under the fixed env
secret, 401 on `JWTError` or a null `sub`) and attach it with
`Depends(verify_token)` to their `/mcp/tools/*` routes.
`scout_local_mcp/src/server.py`, `synthetic_server_v2.py` and
`synthetic_server_v3.py` declare their tool routes with no auth
dependency at all.  The route declarations are transcribed below. -/

/-- A bearer credential as seen by `verify_token` after `HTTPBearer`
extraction: decoding either raises `JWTError` or yields a payload whose
`sub` may be null. -/
inductive Credential where
  | undecodable
  | decoded (sub : Option String)
deriving DecidableEq, Repr

/-- `verify_token` (audio_server.py lines 64-82; identical in the other
nine gated servers): 401 unless the token decodes and carries a
non-null subject. -/
def verify_token : Credential → Except ℕ String
  | .undecodable => .error 401
  | .decoded none => .error 401
  | .decoded (some sub) => .ok sub

structure ToolEndpoint where
  server : String
  path : String
  /-- `true` when the route declares `Depends(verify_token)`. -/
  authGated : Bool
deriving DecidableEq, Repr

/-- Every `/mcp/tools/*` route declared by the servers. -/
def toolEndpoints : List ToolEndpoint :=
  [⟨"audio_analysis_mcp/src/audio_server.py", "/mcp/tools/analyze_audio", true⟩,
   ⟨"audio_analysis_mcp/src/audio_server.py", "/mcp/tools/assess_quality", true⟩,
   ⟨"audio_analysis_mcp/src/audio_server.py", "/mcp/tools/analyze_sentiment", true⟩,
   ⟨"audio_analysis_mcp/src/audio_server.py", "/mcp/tools/search_audio", true⟩,
   ⟨"audio_analysis_mcp/src/audio_server.py", "/mcp/tools/upload_audio", true⟩,
   ⟨"briefvault_rag_mcp/src/briefvault_server.py", "/mcp/tools/ingest_document", true⟩,
   ⟨"briefvault_rag_mcp/src/briefvault_server.py", "/mcp/tools/search_briefs", true⟩,
   ⟨"briefvault_rag_mcp/src/briefvault_server.py", "/mcp/tools/analyze_brief", true⟩,
   ⟨"briefvault_rag_mcp/src/briefvault_server.py", "/mcp/tools/upload_document", true⟩,
   ⟨"creative_rag_mcp/src/rag_server.py", "/mcp/tools/ingest_asset", true⟩,
   ⟨"creative_rag_mcp/src/rag_server.py", "/mcp/tools/search_vector", true⟩,
   ⟨"creative_rag_mcp/src/rag_server.py", "/mcp/tools/search_web", true⟩,
   ⟨"creative_rag_mcp/src/rag_server.py", "/mcp/tools/ingest_image", true⟩,
   ⟨"deep_researcher_mcp/src/researcher_server.py", "/mcp/tools/conduct_research", true⟩,
   ⟨"deep_researcher_mcp/src/researcher_server.py", "/mcp/tools/analyze_competitors", true⟩,
   ⟨"deep_researcher_mcp/src/researcher_server.py", "/mcp/tools/analyze_trends", true⟩,
   ⟨"deep_researcher_mcp/src/researcher_server.py", "/mcp/tools/setup_monitoring", true⟩,
   ⟨"financial_analyst_mcp/src/financial_server.py", "/mcp/tools/analyze_kpis", true⟩,
   ⟨"financial_analyst_mcp/src/financial_server.py", "/mcp/tools/generate_code", true⟩,
   ⟨"financial_analyst_mcp/src/financial_server.py", "/mcp/tools/execute_code", true⟩,
   ⟨"financial_analyst_mcp/src/financial_server.py", "/mcp/tools/list_plots", true⟩,
   ⟨"shared_memory_mcp/src/memory_server.py", "/mcp/tools/store_memory", true⟩,
   ⟨"shared_memory_mcp/src/memory_server.py", "/mcp/tools/recall_memories", true⟩,
   ⟨"shared_memory_mcp/src/memory_server.py", "/mcp/tools/create_relation", true⟩,
   ⟨"shared_memory_mcp/src/memory_server.py", "/mcp/tools/get_memory_graph/id", true⟩,
   ⟨"shared_memory_mcp/src/memory_server.py", "/mcp/tools/forget_memory/id", true⟩,
   ⟨"synthetic_data_mcp/src/synthetic_server.py", "/mcp/tools/generate_data", true⟩,
   ⟨"synthetic_data_mcp/src/synthetic_server.py", "/mcp/tools/validate_quality", true⟩,
   ⟨"synthetic_data_mcp/src/synthetic_server.py", "/mcp/tools/simulate_scenario", true⟩,
   ⟨"synthetic_data_mcp/src/synthetic_server.py", "/mcp/tools/list_outputs", true⟩,
   ⟨"synthetic_data_mcp/src/synthetic_server_v2.py", "/mcp/tools/generate_data", false⟩,
   ⟨"synthetic_data_mcp/src/synthetic_server_v2.py", "/mcp/tools/validate_quality", false⟩,
   ⟨"synthetic_data_mcp/src/synthetic_server_v3.py", "/mcp/tools/generate_data", false⟩,
   ⟨"synthetic_data_mcp/src/synthetic_server_v3.py", "/mcp/tools/validate_quality", false⟩,
   ⟨"unified_mcp/src/unified_server.py", "/mcp/tools/query_unified", true⟩,
   ⟨"unified_mcp/src/unified_server.py", "/mcp/tools/analyze_cross_agent", true⟩,
   ⟨"unified_mcp/src/unified_server.py", "/mcp/tools/create_model", true⟩,
   ⟨"unified_mcp/src/unified_server.py", "/mcp/tools/add_source", true⟩,
   ⟨"unified_mcp/src/unified_server.py", "/mcp/tools/list_sources", true⟩,
   ⟨"video_rag_mcp/src/video_server.py", "/mcp/tools/analyze_video", true⟩,
   ⟨"video_rag_mcp/src/video_server.py", "/mcp/tools/check_compliance", true⟩,
   ⟨"video_rag_mcp/src/video_server.py", "/mcp/tools/search_videos", true⟩,
   ⟨"video_rag_mcp/src/video_server.py", "/mcp/tools/upload_video", true⟩,
   ⟨"voice_agent_mcp/src/voice_server.py", "/mcp/tools/start_voice_session", true⟩,
   ⟨"voice_agent_mcp/src/voice_server.py", "/mcp/tools/transcribe_audio", true⟩,
   ⟨"voice_agent_mcp/src/voice_server.py", "/mcp/tools/analyze_call", true⟩,
   ⟨"voice_agent_mcp/src/voice_server.py", "/mcp/tools/crawl_for_contacts", true⟩,
   ⟨"voice_agent_mcp/src/voice_server.py", "/mcp/tools/upload_audio", true⟩,
   ⟨"scout_local_mcp/src/server.py", "/mcp/tools/add_transcription", false⟩,
   ⟨"scout_local_mcp/src/server.py", "/mcp/tools/fetch_transcriptions", false⟩,
   ⟨"scout_local_mcp/src/server.py", "/mcp/tools/analyze_trends", false⟩]

/-- The three server files whose tool routes have no auth dependency. -/
def ungatedServers : List String :=
  ["synthetic_data_mcp/src/synthetic_server_v2.py",
   "synthetic_data_mcp/src/synthetic_server_v3.py",
   "scout_local_mcp/src/server.py"]

/-- Whether a request reaches the endpoint's handler: a gated route
runs `verify_token` on the extracted credential (the `HTTPBearer`
dependency rejects a request with no credential before the handler);
an ungated route admits every request. -/
def endpointAdmits (ep : ToolEndpoint) (cred : Option Credential) : Bool :=
  if ep.authGated then
    match cred with
    | none => false
    | some c =>
      match verify_token c with
      | .ok _ => true
      | .error _ => false
  else true

/-! ## financial_server.py: sandboxed code execution (lines 108-456)

`execute_code` dispatches on `request.sandbox and docker_client`;
`_execute_subprocess` runs the code with `asyncio.wait_for(...,
timeout=timeout)` and on `TimeoutError` kills the child and returns
`{"success": False, "error": "Execution timeout"}`.  The child process
itself is external, so its outcome is an input. -/

/-- `CodeExecutionRequest` (financial_server.py lines 108-111), with
its field defaults. -/
structure CodeExecutionRequest where
  code : String
  timeout : ℕ := 30
  sandbox : Bool := true

inductive ExecPath where
  | docker
  | subprocess
deriving DecidableEq, Repr

/-- The dispatch in `execute_code` (lines 336-348):
`if request.sandbox and docker_client: _execute_in_docker(...) else:
_execute_subprocess(...)`. -/
def execute_code_path (req : CodeExecutionRequest) (dockerClientAvailable : Bool) :
    ExecPath :=
  if req.sandbox && dockerClientAvailable then .docker else .subprocess

/-- How far the spawned `python` child got within the timeout. -/
inductive SubprocessOutcome where
  | completesWithin (returncode : ℤ) (stdout stderr : String)
  | timesOut
  | raises (msg : String)

/-- Result fields of `_execute_subprocess` (lines 405-456) relevant to
the claims; `killedChild` records the `proc.kill()` call on timeout. -/
structure SubprocessResult where
  success : Bool
  error : Option String
  killedChild : Bool
deriving DecidableEq, Repr

/-- `_execute_subprocess`: on completion `success = (returncode == 0)`;
on `asyncio.TimeoutError` the child is killed and
`{"success": False, "error": "Execution timeout"}` is returned; any
other exception yields the prefixed error dict. -/
def execute_subprocess : SubprocessOutcome → SubprocessResult
  | .completesWithin rc _ _ => ⟨rc == 0, none, false⟩
  | .timesOut => ⟨false, some "Execution timeout", true⟩
  | .raises msg => ⟨false, some ("Subprocess execution failed: " ++ msg), false⟩

/-! ## unified_server.py: mocked cross-agent analysis (lines 307-363) -/

/-- `CrossAgentAnalysis` request model (unified_server.py lines 108-112). -/
structure CrossAgentAnalysis where
  analysis_type : String
  agents : List String
  metrics : List String := []

/-- One entry of the `correlations` dict built for a correlation
request. -/
structure CorrelationEntry where
  key : String
  correlation_coefficient : ℚ
  p_value : ℚ
  relationship : String
deriving DecidableEq, Repr

/-- The double loop `for i, agent1 in enumerate(request.agents): for
agent2 in request.agents[i+1:]` of `analyze_cross_agent`, building an
entry with the constants 0.75 / 0.001 / "positive" for every index
pair i < j. -/
def correlationPairs : List String → List CorrelationEntry
  | [] => []
  | a :: rest =>
      rest.map (fun b => ⟨a ++ "_vs_" ++ b, 0.75, 0.001, "positive"⟩) ++
        correlationPairs rest

/-- The fields of `analyze_cross_agent`'s return value the claim is
about: `success` and, for a correlation request, the `correlations`
dict.  The function reads no data source and no agent state. -/
structure CrossAgentResult where
  success : Bool
  correlations : Option (List CorrelationEntry)

def analyze_cross_agent (req : CrossAgentAnalysis) : CrossAgentResult :=
  ⟨true,
   if req.analysis_type = "correlation" then some (correlationPairs req.agents)
   else none⟩

/-! ## src/handlers.py: demo search over hardcoded mock data -/

/-- One record of `MockVectorStore.mock_data` (handlers.py lines 17-33). -/
structure MockItem where
  id : String
  title : String
  content : String
  agent : String
deriving DecidableEq, Repr

def mock_data : List MockItem :=
  [⟨"1", "MCP Integration Guide", "How to integrate MCP with Pulser agents", "claudia"⟩,
   ⟨"2", "Agent Orchestration Patterns", "Best practices for multi-agent coordination", "maya"⟩]

/-- The filter in `MockVectorStore.search` (lines 52-54): an item is
skipped only when a filters dict is present, its `agent` value is
truthy (non-empty), and the item's agent differs. -/
def passesAgentFilter (agentFilter : Option String) (item : MockItem) : Bool :=
  match agentFilter with
  | none => true
  | some a => if a = "" then true else item.agent == a

/-- `MockVectorStore.search` (lines 36-58): iterate `mock_data[:limit]`
and keep the items passing the agent filter.  `limit` is validated
`ge=1, le=100` by the `SearchRequest` model, hence a natural number. -/
def vector_store_search (agentFilter : Option String) (limit : ℕ) : List MockItem :=
  (mock_data.take limit).filter (passesAgentFilter agentFilter)

/-- The response fields of `SearchHandler.search` (lines 65-91) the
claim is about: `results` and `total = len(search_results)`. -/
structure SearchResponseModel where
  results : List MockItem
  total : ℕ

def search_handler_search (_query : String) (agentFilter : Option String)
    (limit : ℕ) : SearchResponseModel :=
  let rs := vector_store_search agentFilter limit
  ⟨rs, rs.length⟩

/-! ## audio_server.py: quality heuristics

The librosa spectral feature arrays are inputs; `np.mean`, `np.clip`
and the score arithmetic are the repository's own computation. -/

/-- `np.mean` on a non-empty one-dimensional array. -/
def npMean (l : List ℚ) : ℚ := l.sum / l.length

/-- `np.clip(x, lo, hi) = minimum(hi, maximum(lo, x))`. -/
def npClip (x lo hi : ℚ) : ℚ := min hi (max lo x)

/-- `centroid_score = np.clip((np.mean(spectral_centroid) - 1000) / 3000, 0, 1) * 100`
(audio_server.py line 437). -/
def centroid_score (spectral_centroid : List ℚ) : ℚ :=
  npClip ((npMean spectral_centroid - 1000) / 3000) 0 1 * 100

/-- `bandwidth_score = np.clip(np.mean(spectral_bandwidth) / 4000, 0, 1) * 100`
(line 438). -/
def bandwidth_score (spectral_bandwidth : List ℚ) : ℚ :=
  npClip (npMean spectral_bandwidth / 4000) 0 1 * 100

/-- `rolloff_score = np.clip((np.mean(spectral_rolloff) - 2000) / 6000, 0, 1) * 100`
(line 439). -/
def rolloff_score (spectral_rolloff : List ℚ) : ℚ :=
  npClip ((npMean spectral_rolloff - 2000) / 6000) 0 1 * 100

/-- `_calculate_clarity_score` (lines 426-445), `try` branch:
`clarity_score = centroid_score * 0.4 + bandwidth_score * 0.3 +
rolloff_score * 0.3` over the three normalized scores. -/
def calculate_clarity_score (spectral_centroid spectral_bandwidth
    spectral_rolloff : List ℚ) : ℚ :=
  centroid_score spectral_centroid * 0.4 +
    bandwidth_score spectral_bandwidth * 0.3 +
    rolloff_score spectral_rolloff * 0.3

/-- The clarity formula as the claim words it: the weighted combination
of the raw mean spectral centroid, mean bandwidth and mean rolloff
themselves, to be compared with `calculate_clarity_score`. -/
def claimedClarityScore (spectral_centroid spectral_bandwidth
    spectral_rolloff : List ℚ) : ℚ :=
  npMean spectral_centroid * 0.4 + npMean spectral_bandwidth * 0.3 +
    npMean spectral_rolloff * 0.3

/-- The clamp in `_estimate_snr` (line 418):
`float(max(0, min(50, snr)))`. -/
def clamp_snr (snr : ℚ) : ℚ := max 0 (min 50 snr)

/-- `_estimate_snr` (audio_server.py lines 398-424).  `excRaised` is
whether any statement of the `try` block raised (caught at line 422,
returning 20.0); `numNoiseFrames` is `noise_frames.shape[1]`; `snrDb`
abstracts `20 * log10(signal_estimate / (noise_estimate + 1e-10))`,
a real number computed from the librosa magnitudes, which the clamp
bounds for every possible value. -/
def estimate_snr (excRaised : Bool) (numNoiseFrames : ℕ) (snrDb : ℚ) : ℚ :=
  if excRaised then 20.0
  else if 0 < numNoiseFrames then clamp_snr snrDb
  else 25.0

end PulserMCP

open PulserMCP

/-- C1: the expected TBWA client share computed by
`calculate_total_tbwa_share()` — the sum over the 17 categories of
`CATEGORY_WEIGHTS[c] * TBWA_CATEGORY_SHARE[c]` — equals exactly 0.2211,
approximately the 0.22 default the validation script compares against. -/
theorem C1_total_tbwa_share :
    calculate_total_tbwa_share = 0.2211 ∧
    CATEGORY_WEIGHTS.length = 17 := by
  refine ⟨?_, rfl⟩
  norm_num [calculate_total_tbwa_share, CATEGORY_WEIGHTS, share_Dairy,
    share_CoffeeCreamer, share_Snacks, share_Beverage, share_CSD,
    share_Noodles, share_Pasta, share_Tobacco, share_HomeCare,
    share_PersonalCare, share_Condiment, share_Canned, share_Rice,
    share_Coffee, share_Confectionery, share_Alcohol, share_Other]

/-- C2: `CATEGORY_WEIGHTS` is a probability distribution over the 17
categories: every weight is non-negative and the weights sum exactly
to 1, so the weighted category draw `np.random.choice(..., p=weights)`
in `_generate_single_transaction` is well defined. -/
theorem C2_category_weights_distribution :
    (CATEGORY_WEIGHTS.map Prod.snd).sum = 1 ∧
    (∀ p ∈ CATEGORY_WEIGHTS, 0 ≤ p.2) ∧
    CATEGORY_WEIGHTS.length = 17 := by
  refine ⟨by norm_num [CATEGORY_WEIGHTS], ?_, rfl⟩
  intro p hp
  fin_cases hp <;> norm_num

/-- C9: `_generate_transactions` produces at least `num_records` rows;
exactly `num_records` when `coverage_first` is false; the coverage
pass generates `int(max(50, num_records // 68) * regional_weight)` rows
for each region with locations regardless of `num_records`; and for
`num_records = 100` (with every region having locations) the output is
1170 rows, strictly more than requested, because the negative remainder
makes the second pass empty rather than removing rows. -/
theorem C9_row_count (locCount : String → ℕ) (req : GenerationRequest) :
    req.num_records ≤ generatedRowCount locCount req ∧
    (req.coverage_first = false → generatedRowCount locCount req = req.num_records) ∧
    (∀ w : ℚ, regionTarget req.num_records w =
      (⌊((max 50 (req.num_records / 68) : ℕ) : ℚ) * w⌋).toNat) ∧
    ((∀ r, 0 < locCount r) → req.coverage_first = true → req.num_records = 100 →
      generatedRowCount locCount req = 1170) := by
  refine ⟨?_, ?_, fun w => rfl, ?_⟩
  · unfold generatedRowCount
    omega
  · intro h
    unfold generatedRowCount
    rw [h]
    simp
  · intro hloc hcov hnum
    unfold generatedRowCount
    rw [hcov, hnum, if_pos rfl, firstPassCount_all_regions locCount hloc,
      firstPass_at_100]

/-- Witness for C9, mirroring the claim's example: a default request
for 100 records with every region present in the location data yields
1170 rows, strictly more than the 100 requested. -/
theorem C9_row_count_witness :
    generatedRowCount (fun _ => 1)
      { dataset_type := "transactions", num_records := 100,
        output_format := "csv", coverage_first := true } = 1170 ∧
    100 < 1170 := by
  refine ⟨(C9_row_count (fun _ => 1) _).2.2.2 (fun _ => Nat.one_pos) rfl rfl, ?_⟩
  norm_num

/-- C3 counterexample: it is not true that every MCP tool handler
converts every exception raised in its body into the error dict (or an
HTTPException): `scout_local_mcp`'s `add_transcription` runs
`sqlite3.connect(DB_PATH)` before its `try` block, and an exception
there propagates to the caller. -/
theorem C3_handler_errors_counterexample :
    ¬ (∀ h ∈ mcpHandlers, ∀ preExc body msg,
        runHandler h preExc body ≠ HandlerBehavior.propagates msg) := by
  intro hall
  exact hall ⟨"scout_local_mcp/src/server.py", "add_transcription", true⟩
    (by decide) (some "disk I/O error") (.completes true none) "disk I/O error" rfl

/-- C3 (amended): every exception raised inside a handler's `try` block
is returned as `{"success": false, "error": str(e)}`; a handler whose
body has no fallible statements before the `try` — every handler except
the three in `scout_local_mcp/src/server.py`, which open the sqlite
connection first — never propagates an exception. -/
theorem C3_handler_errors (h : ToolHandler) (hmem : h ∈ mcpHandlers)
    (preExc : Option String) (body : BodyOutcome) (msg : String) :
    runHandler h none (BodyOutcome.raises msg) =
      HandlerBehavior.returns false (some msg) ∧
    (h.preTryFallible = false →
      runHandler h preExc body ≠ HandlerBehavior.propagates msg) ∧
    (h.preTryFallible = true → h.server = "scout_local_mcp/src/server.py") := by
  refine ⟨?_, ?_, ?_⟩
  · cases hpt : h.preTryFallible <;> simp [runHandler, hpt, runTryBody]
  · intro hpt
    cases body <;> simp [runHandler, hpt, runTryBody]
  · intro hpt
    fin_cases hmem <;> simp_all

/-- Witness for C3 (amended), at the `execute_code` handler of the
financial analyst server with a concrete exception. -/
theorem C3_handler_errors_witness :
    runHandler ⟨"financial_analyst_mcp/src/financial_server.py", "execute_code", false⟩
      none (BodyOutcome.raises "boom") =
      HandlerBehavior.returns false (some "boom") := by
  exact (C3_handler_errors _ (by decide) none (.raises "boom") "boom").1

/-- C5 counterexample: JWT bearer auth does not gate access uniformly
across servers: `scout_local_mcp`'s `/mcp/tools/add_transcription`
route admits a request that carries no bearer credential at all. -/
theorem C5_jwt_gating_counterexample :
    ¬ (∀ ep ∈ toolEndpoints, endpointAdmits ep none = false) := by
  intro hall
  have h := hall ⟨"scout_local_mcp/src/server.py", "/mcp/tools/add_transcription", false⟩
    (by decide)
  simp [endpointAdmits] at h

/-- C5 (amended): JWT gating is not uniform.  On the routes that declare
`Depends(verify_token)` a request is admitted exactly when its bearer
token decodes under the fixed HS256 secret with a non-null subject, a
credential that fails verification is rejected with 401, and a request
with no credential is not admitted; but the `/mcp/tools` routes of
`synthetic_server_v2.py`, `synthetic_server_v3.py` and
`scout_local_mcp/src/server.py` — and only those — have no auth
dependency and admit every request. -/
theorem C5_jwt_gating (ep : ToolEndpoint) (hmem : ep ∈ toolEndpoints) :
    (ep.authGated = true →
      (∀ c, endpointAdmits ep (some c) = true ↔ ∃ sub, verify_token c = .ok sub) ∧
      (∀ c, (∀ sub, verify_token c ≠ .ok sub) → verify_token c = .error 401) ∧
      endpointAdmits ep none = false) ∧
    (ep.authGated = false ↔ ep.server ∈ ungatedServers) ∧
    (ep.authGated = false → ∀ cred, endpointAdmits ep cred = true) := by
  refine ⟨?_, ?_, ?_⟩
  · intro hg
    refine ⟨?_, ?_, by simp [endpointAdmits, hg]⟩
    · intro c
      cases c with
      | undecodable => simp [endpointAdmits, hg, verify_token]
      | decoded sub => cases sub <;> simp [endpointAdmits, hg, verify_token]
    · intro c hc
      cases c with
      | undecodable => rfl
      | decoded sub =>
        cases sub with
        | none => rfl
        | some s => exact absurd rfl (hc s)
  · fin_cases hmem <;> simp [ungatedServers]
  · intro hg cred
    simp [endpointAdmits, hg]

/-- Witness for C5 (amended): the audio server's `analyze_audio` route
is gated and rejects a credential with a null subject, while the scout
server's `add_transcription` route admits a request with no credential. -/
theorem C5_jwt_gating_witness :
    verify_token (Credential.decoded none) = .error 401 ∧
    endpointAdmits
      ⟨"scout_local_mcp/src/server.py", "/mcp/tools/add_transcription", false⟩
      none = true := by
  constructor
  · exact (C5_jwt_gating
      ⟨"audio_analysis_mcp/src/audio_server.py", "/mcp/tools/analyze_audio", true⟩
      (by decide)).1 rfl |>.2.1 (Credential.decoded none) (by intro s h; cases h)
  · exact (C5_jwt_gating
      ⟨"scout_local_mcp/src/server.py", "/mcp/tools/add_transcription", false⟩
      (by decide)).2.2 rfl none

/-- C6: `execute_code` runs in Docker exactly when the request asks for
a sandbox and a Docker client is available, and otherwise falls back to
a subprocess; in the subprocess path a timeout kills the child and
returns `{"success": false, "error": "Execution timeout"}`; the
request's timeout defaults to 30 seconds. -/
theorem C6_execute_code (req : CodeExecutionRequest) (dockerClientAvailable : Bool) :
    (req.sandbox = true → dockerClientAvailable = true →
      execute_code_path req dockerClientAvailable = ExecPath.docker) ∧
    (req.sandbox = false ∨ dockerClientAvailable = false →
      execute_code_path req dockerClientAvailable = ExecPath.subprocess) ∧
    execute_subprocess SubprocessOutcome.timesOut =
      ⟨false, some "Execution timeout", true⟩ ∧
    (∀ c, ({ code := c } : CodeExecutionRequest).timeout = 30) := by
  refine ⟨?_, ?_, rfl, fun c => rfl⟩
  · intro hs hd
    simp [execute_code_path, hs, hd]
  · intro h
    rcases h with h | h <;> simp [execute_code_path, h]

/-- Witness for C6: with no Docker client the request falls back to the
subprocess path, and a timed-out subprocess yields the timeout error
dict. -/
theorem C6_execute_code_witness :
    execute_code_path { code := "print(1)" } false = ExecPath.subprocess ∧
    execute_subprocess SubprocessOutcome.timesOut =
      ⟨false, some "Execution timeout", true⟩ ∧
    ({ code := "print(1)" } : CodeExecutionRequest).timeout = 30 := by
  exact ⟨(C6_execute_code { code := "print(1)" } false).2.1 (Or.inr rfl),
    (C6_execute_code { code := "print(1)" } false).2.2.1,
    (C6_execute_code { code := "print(1)" } false).2.2.2 "print(1)"⟩

lemma correlationPairs_mem (l1 : List String) (a : String) (l2 : List String)
    (b : String) (l3 : List String) :
    (⟨a ++ "_vs_" ++ b, 0.75, 0.001, "positive"⟩ : CorrelationEntry) ∈
      correlationPairs (l1 ++ a :: (l2 ++ b :: l3)) := by
  induction l1 with
  | nil =>
    simp only [List.nil_append, correlationPairs]
    exact List.mem_append_left _
      (List.mem_map_of_mem _ (List.mem_append_right _ (List.mem_cons_self b l3)))
  | cons c l ih =>
    simp only [List.cons_append, correlationPairs]
    exact List.mem_append_right _ ih

lemma correlationPairs_const (agents : List String) (e : CorrelationEntry)
    (he : e ∈ correlationPairs agents) :
    e.correlation_coefficient = 0.75 ∧ e.p_value = 0.001 ∧
      e.relationship = "positive" := by
  induction agents with
  | nil => simp [correlationPairs] at he
  | cons a rest ih =>
    simp only [correlationPairs, List.mem_append] at he
    rcases he with h | h
    · obtain ⟨b, _, rfl⟩ := List.mem_map.mp h
      exact ⟨rfl, rfl, rfl⟩
    · exact ih h

/-- C7: for every correlation-type request, `analyze_cross_agent`
reports success and returns, for each pair of agents at positions
i < j of the request, exactly the mock constants
`correlation_coefficient = 0.75`, `p_value = 0.001`,
`relationship = "positive"`, consulting no data source or agent
state. -/
theorem C7_cross_agent_mock (req : CrossAgentAnalysis)
    (hty : req.analysis_type = "correlation") :
    (analyze_cross_agent req).success = true ∧
    (analyze_cross_agent req).correlations = some (correlationPairs req.agents) ∧
    (∀ e ∈ correlationPairs req.agents,
      e.correlation_coefficient = 0.75 ∧ e.p_value = 0.001 ∧
        e.relationship = "positive") ∧
    (∀ l1 a l2 b l3, req.agents = l1 ++ a :: (l2 ++ b :: l3) →
      (⟨a ++ "_vs_" ++ b, 0.75, 0.001, "positive"⟩ : CorrelationEntry) ∈
        correlationPairs req.agents) := by
  refine ⟨rfl, by simp [analyze_cross_agent, hty],
    fun e he => correlationPairs_const _ e he, ?_⟩
  intro l1 a l2 b l3 hag
  rw [hag]
  exact correlationPairs_mem l1 a l2 b l3

/-- Witness for C7: a correlation request for the two demo agents
yields exactly the single mock entry. -/
theorem C7_cross_agent_mock_witness :
    (analyze_cross_agent ⟨"correlation", ["claudia", "maya"], []⟩).correlations =
      some [⟨"claudia_vs_maya", 0.75, 0.001, "positive"⟩] := by
  have h := (C7_cross_agent_mock ⟨"correlation", ["claudia", "maya"], []⟩ rfl).2.1
  rw [h]
  rfl

/-- C8: the demo search handler returns at most `limit` results, its
`total` field equals the number of results returned, and under a
non-empty agent filter every returned result's agent equals the filter
value. -/
theorem C8_search_mock (query : String) (agentFilter : Option String) (limit : ℕ) :
    (search_handler_search query agentFilter limit).results.length ≤ limit ∧
    (search_handler_search query agentFilter limit).total =
      (search_handler_search query agentFilter limit).results.length ∧
    (∀ a, agentFilter = some a → a ≠ "" →
      ∀ item ∈ (search_handler_search query agentFilter limit).results,
        item.agent = a) := by
  refine ⟨?_, rfl, ?_⟩
  · calc (vector_store_search agentFilter limit).length
        ≤ (mock_data.take limit).length := List.length_filter_le _ _
      _ ≤ limit := by
          rw [List.length_take]
          exact min_le_left _ _
  · intro a ha hne item hitem
    have hp := List.of_mem_filter hitem
    rw [ha] at hp
    simp only [passesAgentFilter, if_neg hne, beq_iff_eq] at hp
    exact hp

/-- Witness for C8, mirroring `test_search_with_filters`: a search
with `agent = "claudia"` and `limit = 5` returns exactly the one
claudia record, within the limit. -/
theorem C8_search_mock_witness :
    (search_handler_search "vector search" (some "claudia") 5).results =
      [⟨"1", "MCP Integration Guide", "How to integrate MCP with Pulser agents",
        "claudia"⟩] ∧
    (search_handler_search "vector search" (some "claudia") 5).results.length ≤ 5 := by
  exact ⟨rfl, (C8_search_mock "vector search" (some "claudia") 5).1⟩

/-- C4 counterexample: the clarity score is not the weighted
combination of the raw mean spectral centroid, bandwidth and rolloff:
for mean centroid 4000, mean bandwidth 4000 and mean rolloff 8000 the
code clips each normalized score to 1 and returns 100, while the
claim's formula gives 5200. -/
theorem C4_clarity_counterexample :
    calculate_clarity_score [4000] [4000] [8000] = 100 ∧
    claimedClarityScore [4000] [4000] [8000] = 5200 ∧
    calculate_clarity_score [4000] [4000] [8000] ≠
      claimedClarityScore [4000] [4000] [8000] := by
  have hcode : calculate_clarity_score [4000] [4000] [8000] = 100 := by
    norm_num [calculate_clarity_score, centroid_score, bandwidth_score,
      rolloff_score, npClip, npMean, min_def, max_def]
  have hclaim : claimedClarityScore [4000] [4000] [8000] = 5200 := by
    norm_num [claimedClarityScore, npMean]
  refine ⟨hcode, hclaim, ?_⟩
  rw [hcode, hclaim]
  norm_num

lemma npClip01 (x : ℚ) : 0 ≤ npClip x 0 1 ∧ npClip x 0 1 ≤ 1 := by
  unfold npClip
  exact ⟨le_min (by norm_num) (le_max_left 0 x), min_le_left 1 _⟩

/-- C4 (amended): the clarity score combines the three spectral
features with weights 0.4/0.3/0.3 only after each mean is normalized —
clipped to [0, 1] by an affine rescaling and multiplied by 100 — so
the result always lies in [0, 100]. -/
theorem C4_clarity_formula (c b r : List ℚ) :
    calculate_clarity_score c b r =
      npClip ((npMean c - 1000) / 3000) 0 1 * 100 * 0.4 +
        npClip (npMean b / 4000) 0 1 * 100 * 0.3 +
        npClip ((npMean r - 2000) / 6000) 0 1 * 100 * 0.3 ∧
    0 ≤ calculate_clarity_score c b r ∧
    calculate_clarity_score c b r ≤ 100 := by
  have hc := npClip01 ((npMean c - 1000) / 3000)
  have hb := npClip01 (npMean b / 4000)
  have hr := npClip01 ((npMean r - 2000) / 6000)
  refine ⟨rfl, ?_, ?_⟩ <;>
    · unfold calculate_clarity_score centroid_score bandwidth_score rolloff_score
      linarith [hc.1, hc.2, hb.1, hb.2, hr.1, hr.2]

/-- C10: for every audio input — including those that raise inside the
`try` (fallback 20.0) and those with no quiet frames (fallback 25.0) —
the SNR estimate of `_estimate_snr` lies in the closed interval
[0, 50] dB, the computed value being clamped by `max(0, min(50, snr))`. -/
theorem C10_snr_range (excRaised : Bool) (numNoiseFrames : ℕ) (snrDb : ℚ) :
    0 ≤ estimate_snr excRaised numNoiseFrames snrDb ∧
    estimate_snr excRaised numNoiseFrames snrDb ≤ 50 := by
  unfold estimate_snr clamp_snr
  split
  · norm_num
  · split
    · exact ⟨le_max_left 0 _, max_le (by norm_num) (min_le_left 50 snrDb)⟩
    · norm_num
